import Mathlib

/-!
Verification of the core of `desafio.py`: a small in-memory banking
system with deposit/withdraw operations on a balance plus transaction
history, a factory for accounts bound to registered users, a filtering
report generator, a custom account iterator, and an audit-logging
wrapper applied to the mutating operations.

Monetary amounts (Python floats used as exact decimal values) are
modelled as rationals `ℚ`; the transaction history `extrato` is a list
of pairs `(tipo, valor)` exactly as in the source, where the stored
`valor` is signed (positive for deposits, negative for withdrawals).
Console prints that signal success/failure of an operation are
modelled as an explicit outcome value returned next to the values the
Python function returns.
-/

/-- A transaction as stored in `extrato`: a `(tipo, valor)` pair,
mirroring the Python tuples `("Depósito", valor)` / `("Saque", -valor)`. -/
abbrev Transacao := String × ℚ

/-- Outcome printed by `depositar`: the success message or the
"O valor informado é inválido" failure message. -/
inductive DepositoMsg where
  | sucesso
  | valorInvalido
  deriving DecidableEq, Repr

/-- Shallow embedding of `depositar(saldo, valor, extrato, /)` from
`desafio.py` (lines 22–31): if `valor > 0` the balance grows by `valor`
and a `("Depósito", valor)` entry is appended; otherwise nothing
changes.  The returned pair is the Python return value
`(saldo, extrato)`; the message component records which branch printed. -/
def depositar (saldo valor : ℚ) (extrato : List Transacao) :
    (ℚ × List Transacao) × DepositoMsg :=
  if valor > 0 then
    ((saldo + valor, extrato ++ [("Depósito", valor)]), .sucesso)
  else
    ((saldo, extrato), .valorInvalido)

/-- Outcome printed by `sacar`: one of the four error messages or the
success message. -/
inductive SaqueMsg where
  | saldoInsuficiente
  | excedeLimite
  | excedeSaques
  | sucesso
  | valorInvalido
  deriving DecidableEq, Repr

/-- Shallow embedding of
`sacar(*, saldo, valor, extrato, limite, numero_saques, limite_saques)`
from `desafio.py` (lines 34–54).  The three boolean flags and the
`if/elif` chain are kept exactly as written: balance check first, then
per-withdrawal limit, then withdrawal count, then positivity; the
success branch subtracts `valor`, appends `("Saque", -valor)` and
increments `numero_saques`.  The returned triple is the Python return
value `(saldo, extrato, numero_saques)`. -/
def sacar (saldo valor : ℚ) (extrato : List Transacao) (limite : ℚ)
    (numero_saques limite_saques : ℕ) :
    (ℚ × List Transacao × ℕ) × SaqueMsg :=
  let excedeu_saldo := valor > saldo
  let excedeu_limite := valor > limite
  let excedeu_saques := numero_saques ≥ limite_saques
  if excedeu_saldo then
    ((saldo, extrato, numero_saques), .saldoInsuficiente)
  else if excedeu_limite then
    ((saldo, extrato, numero_saques), .excedeLimite)
  else if excedeu_saques then
    ((saldo, extrato, numero_saques), .excedeSaques)
  else if valor > 0 then
    ((saldo - valor, extrato ++ [("Saque", -valor)], numero_saques + 1), .sucesso)
  else
    ((saldo, extrato, numero_saques), .valorInvalido)

/-- The mutable state threaded through the main loop of `desafio.py`:
`(saldo, extrato, numero_saques)`. -/
abbrev Estado := ℚ × List Transacao × ℕ

/-- One call made by the main loop: a deposit of `valor`, or a
withdrawal of `valor` under a per-withdrawal limit `limite` and a
withdrawal-count limit `limite_saques`. -/
inductive Operacao where
  | deposito (valor : ℚ)
  | saque (valor limite : ℚ) (limite_saques : ℕ)
  deriving DecidableEq, Repr

/-- Execute one operation on the state, exactly as the main loop
threads the return values of `depositar` / `sacar` back into its
variables (a deposit leaves `numero_saques` untouched). -/
def executar (st : Estado) : Operacao → Estado
  | .deposito valor =>
      ((depositar st.1 valor st.2.1).1.1, (depositar st.1 valor st.2.1).1.2, st.2.2)
  | .saque valor limite limite_saques =>
      (sacar st.1 valor st.2.1 limite st.2.2 limite_saques).1

/-- Execute a whole sequence of calls, left to right. -/
def executarTodos : Estado → List Operacao → Estado
  | st, [] => st
  | st, op :: ops => executarTodos (executar st op) ops

/-- Whether an operation, run in state `st`, is a *successful*
withdrawal (i.e. `sacar` takes its success branch there). -/
def sucessoSaque (st : Estado) : Operacao → Bool
  | .deposito _ => false
  | .saque valor limite limite_saques =>
      (sacar st.1 valor st.2.1 limite st.2.2 limite_saques).2 == SaqueMsg.sucesso

/-- Number of successful withdrawals performed along a sequence of
calls started in state `st`. -/
def contarSaquesSucedidos : Estado → List Operacao → ℕ
  | _, [] => 0
  | st, op :: ops =>
      (if sucessoSaque st op then 1 else 0) + contarSaquesSucedidos (executar st op) ops

/-- Shallow embedding of the generator `gerar_relatorio(transacoes, tipo=None)`
from `desafio.py` (lines 78–85): walk `transacoes` in order and yield
`t` whenever `tipo` is `None` or `t[0].lower() == tipo.lower()`.  The
lazily yielded sequence is modelled by the (finite) list of yielded
elements, in yield order. -/
def gerar_relatorio : List Transacao → Option String → List Transacao
  | [], _ => []
  | t :: ts, tipo =>
      if (match tipo with
          | none => true
          | some s => t.1.toLower == s.toLower) then
        t :: gerar_relatorio ts tipo
      else
        gerar_relatorio ts tipo

/-- A registered user, as built by `criar_usuario`:
`{"nome": ..., "data_nascimento": ..., "cpf": ..., "endereco": ...}`. -/
structure Usuario where
  nome : String
  data_nascimento : String
  cpf : String
  endereco : String
  deriving DecidableEq, Repr

/-- An account, as built by `criar_conta`:
`{"agencia": ..., "numero_conta": ..., "usuario": ..., "saldo": ..., "extrato": ...}`. -/
structure Conta where
  agencia : String
  numero_conta : ℕ
  usuario : Usuario
  saldo : ℚ
  extrato : List Transacao
  deriving DecidableEq, Repr

/-- Shallow embedding of `filtrar_usuario(cpf, usuarios)` from
`desafio.py` (lines 143–145): the first user whose `cpf` equals the
given one, or `none` if the filtered list is empty. -/
def filtrar_usuario (cpf : String) (usuarios : List Usuario) : Option Usuario :=
  (usuarios.filter (fun u => u.cpf == cpf)).head?

/-- Shallow embedding of `criar_conta(agencia, numero_conta, usuarios)`
from `desafio.py` (lines 57–73).  The CPF read from the console is a
parameter here.  If `filtrar_usuario` finds the user, a fresh account
dictionary with `saldo = 0` and `extrato = []` is returned; otherwise
the Python function falls through and returns `None`. -/
def criar_conta (agencia : String) (numero_conta : ℕ) (usuarios : List Usuario)
    (cpf : String) : Option Conta :=
  match filtrar_usuario cpf usuarios with
  | some usuario =>
      some { agencia := agencia, numero_conta := numero_conta, usuario := usuario,
             saldo := 0, extrato := [] }
  | none => none

/-- The state of the custom iterator `ContasIterator` from `desafio.py`
(lines 90–106): the underlying list of accounts and the current index. -/
structure ContasIterator where
  contas : List Conta
  indice : ℕ
  deriving Repr

/-- The summary tuple yielded per account:
`(conta["numero_conta"], conta["usuario"]["nome"], conta["saldo"])`. -/
def resumoConta (conta : Conta) : ℕ × String × ℚ :=
  (conta.numero_conta, conta.usuario.nome, conta.saldo)

/-- One step of `ContasIterator.__next__`: if the index is in range,
yield the summary tuple of the current account and advance the index;
otherwise signal exhaustion (`StopIteration`), leaving the iterator
state untouched. -/
def ContasIterator.avancar (it : ContasIterator) :
    Option (ℕ × String × ℚ) × ContasIterator :=
  if h : it.indice < it.contas.length then
    (some (resumoConta (it.contas.get ⟨it.indice, h⟩)),
     { it with indice := it.indice + 1 })
  else
    (none, it)

/-- Run the iterator for at most `fuel` steps, collecting yielded
tuples until exhaustion. -/
def ContasIterator.executarAux : ℕ → ContasIterator → List (ℕ × String × ℚ)
  | 0, _ => []
  | fuel + 1, it =>
      match it.avancar with
      | (some x, it') => x :: ContasIterator.executarAux fuel it'
      | (none, _) => []

/-- Run the iterator to exhaustion (the remaining length of the list is
always enough fuel), collecting the yielded tuples in order. -/
def ContasIterator.executarTudo (it : ContasIterator) : List (ℕ × String × ℚ) :=
  ContasIterator.executarAux (it.contas.length - it.indice) it

/-- An observable event emitted during an operation: an ordinary
console print, or the audit record printed by the decorator
`registrar_transacao` (a timestamped line naming the wrapped function;
the timestamp is abstracted away, the function name kept). -/
inductive Evento where
  | saida (texto : String)
  | registro (nome : String)
  deriving DecidableEq, Repr

/-- Shallow embedding of the decorator `registrar_transacao(func)` from
`desafio.py` (lines 10–17).  An operation is modelled as a function
from its input to its return value paired with the ordered list of
events it emits.  The wrapper first runs `func` to completion — so all
of `func`'s events (and state changes, visible in its return value)
happen first — then emits one audit record naming `func`, and returns
`func`'s result unchanged. -/
def registrar_transacao {α β : Type} (nome : String) (func : α → β × List Evento) :
    α → β × List Evento :=
  fun args =>
    let resultado := func args
    (resultado.1, resultado.2 ++ [Evento.registro nome])

/-! ## Helper lemmas about `depositar` and `sacar` -/

lemma depositar_pos (saldo valor : ℚ) (extrato : List Transacao) (h : 0 < valor) :
    depositar saldo valor extrato =
      ((saldo + valor, extrato ++ [("Depósito", valor)]), .sucesso) := by
  simp [depositar, h]

lemma depositar_nonpos (saldo valor : ℚ) (extrato : List Transacao) (h : valor ≤ 0) :
    depositar saldo valor extrato = ((saldo, extrato), .valorInvalido) := by
  simp [depositar, not_lt.mpr h]

lemma sacar_saldo_insuficiente (saldo valor : ℚ) (extrato : List Transacao)
    (limite : ℚ) (ns ls : ℕ) (h : valor > saldo) :
    sacar saldo valor extrato limite ns ls = ((saldo, extrato, ns), .saldoInsuficiente) := by
  simp [sacar, h]

lemma sacar_excede_limite (saldo valor : ℚ) (extrato : List Transacao)
    (limite : ℚ) (ns ls : ℕ) (h1 : valor ≤ saldo) (h2 : valor > limite) :
    sacar saldo valor extrato limite ns ls = ((saldo, extrato, ns), .excedeLimite) := by
  simp [sacar, not_lt.mpr h1, h2]

lemma sacar_excede_saques (saldo valor : ℚ) (extrato : List Transacao)
    (limite : ℚ) (ns ls : ℕ) (h1 : valor ≤ saldo) (h2 : valor ≤ limite) (h3 : ns ≥ ls) :
    sacar saldo valor extrato limite ns ls = ((saldo, extrato, ns), .excedeSaques) := by
  simp [sacar, not_lt.mpr h1, not_lt.mpr h2, h3]

lemma sacar_sucesso (saldo valor : ℚ) (extrato : List Transacao)
    (limite : ℚ) (ns ls : ℕ) (h1 : valor ≤ saldo) (h2 : valor ≤ limite)
    (h3 : ns < ls) (h4 : 0 < valor) :
    sacar saldo valor extrato limite ns ls =
      ((saldo - valor, extrato ++ [("Saque", -valor)], ns + 1), .sucesso) := by
  simp [sacar, not_lt.mpr h1, not_lt.mpr h2, not_le.mpr h3, h4]

lemma sacar_valor_invalido (saldo valor : ℚ) (extrato : List Transacao)
    (limite : ℚ) (ns ls : ℕ) (h1 : valor ≤ saldo) (h2 : valor ≤ limite)
    (h3 : ns < ls) (h4 : valor ≤ 0) :
    sacar saldo valor extrato limite ns ls = ((saldo, extrato, ns), .valorInvalido) := by
  simp [sacar, not_lt.mpr h1, not_lt.mpr h2, not_le.mpr h3, not_lt.mpr h4]

/-- The balance-vs-history invariant of claim C1: the balance equals
the sum of the signed amounts stored in the history. -/
def invarianteSaldo (st : Estado) : Prop :=
  st.1 = (st.2.1.map Prod.snd).sum

lemma invariante_executar (st : Estado) (op : Operacao)
    (h : invarianteSaldo st) : invarianteSaldo (executar st op) := by
  obtain ⟨saldo, extrato, ns⟩ := st
  cases op with
  | deposito valor =>
      rcases lt_or_le 0 valor with hv | hv
      · simpa [invarianteSaldo, executar, depositar_pos saldo valor extrato hv] using h
      · simpa [invarianteSaldo, executar, depositar_nonpos saldo valor extrato hv] using h
  | saque valor limite ls =>
      simp only [invarianteSaldo, executar, sacar] at h ⊢
      split_ifs <;> simp_all [sub_eq_add_neg]

lemma invariante_executarTodos (ops : List Operacao) (st : Estado)
    (h : invarianteSaldo st) : invarianteSaldo (executarTodos st ops) := by
  induction ops generalizing st with
  | nil => exact h
  | cons op ops ih => exact ih _ (invariante_executar st op h)

/-! ## Claim theorems -/

/-- C1: for every sequence of deposit and withdraw calls starting from
balance 0 and empty history, after each call the balance equals the sum
of the signed amounts stored in the history (deposits contribute
`+amount`, withdrawals `-amount`).  Quantifying over all call sequences
covers every observation point, since every prefix of a sequence is
itself a sequence. -/
theorem saldo_igual_soma_extrato (ops : List Operacao) :
    (executarTodos (0, [], 0) ops).1 =
      ((executarTodos (0, [], 0) ops).2.1.map Prod.snd).sum := by
  have h0 : invarianteSaldo (0, [], 0) := by simp [invarianteSaldo]
  exact invariante_executarTodos ops (0, [], 0) h0

/-- C2: `valor > saldo` always yields the insufficient-funds message,
regardless of the other conditions; the three error checks are tested
in the fixed order balance, per-withdrawal limit, withdrawal count, and
only the first violated one is reported. -/
theorem sacar_prioridade (saldo valor : ℚ) (extrato : List Transacao)
    (limite : ℚ) (ns ls : ℕ) :
    (valor > saldo →
      (sacar saldo valor extrato limite ns ls).2 = SaqueMsg.saldoInsuficiente) ∧
    (valor ≤ saldo → valor > limite →
      (sacar saldo valor extrato limite ns ls).2 = SaqueMsg.excedeLimite) ∧
    (valor ≤ saldo → valor ≤ limite → ns ≥ ls →
      (sacar saldo valor extrato limite ns ls).2 = SaqueMsg.excedeSaques) := by
  refine ⟨fun h => ?_, fun h1 h2 => ?_, fun h1 h2 h3 => ?_⟩
  · rw [sacar_saldo_insuficiente saldo valor extrato limite ns ls h]
  · rw [sacar_excede_limite saldo valor extrato limite ns ls h1 h2]
  · rw [sacar_excede_saques saldo valor extrato limite ns ls h1 h2 h3]

theorem sacar_prioridade_witness :
    (sacar 5 10 [] 3 0 3).2 = SaqueMsg.saldoInsuficiente ∧
    (sacar 20 10 [] 3 0 3).2 = SaqueMsg.excedeLimite ∧
    (sacar 20 10 [] 30 3 3).2 = SaqueMsg.excedeSaques :=
  ⟨(sacar_prioridade 5 10 [] 3 0 3).1 (by decide),
   (sacar_prioridade 20 10 [] 3 0 3).2.1 (by decide) (by decide),
   (sacar_prioridade 20 10 [] 30 3 3).2.2 (by decide) (by decide) (by decide)⟩

/-- C3: whenever `sacar` reports any error (any message other than
success), the returned balance, history and withdrawal count are
exactly the ones passed in — no partial update ever occurs. -/
theorem sacar_sem_atualizacao_parcial (saldo valor : ℚ) (extrato : List Transacao)
    (limite : ℚ) (ns ls : ℕ)
    (h : (sacar saldo valor extrato limite ns ls).2 ≠ SaqueMsg.sucesso) :
    (sacar saldo valor extrato limite ns ls).1 = (saldo, extrato, ns) := by
  rcases lt_or_le saldo valor with h1 | h1
  · rw [sacar_saldo_insuficiente saldo valor extrato limite ns ls h1]
  · rcases lt_or_le limite valor with h2 | h2
    · rw [sacar_excede_limite saldo valor extrato limite ns ls h1 h2]
    · rcases le_or_lt ls ns with h3 | h3
      · rw [sacar_excede_saques saldo valor extrato limite ns ls h1 h2 h3]
      · rcases lt_or_le 0 valor with h4 | h4
        · exact absurd (by rw [sacar_sucesso saldo valor extrato limite ns ls h1 h2 h3 h4]) h
        · rw [sacar_valor_invalido saldo valor extrato limite ns ls h1 h2 h3 h4]

theorem sacar_sem_atualizacao_parcial_witness :
    (sacar 5 10 [] 3 0 3).1 = (5, [], 0) :=
  sacar_sem_atualizacao_parcial 5 10 [] 3 0 3 (by decide)

/-- C4: a deposit of a positive amount adds exactly the amount to the
balance and appends exactly one `("Depósito", valor)` entry; a deposit
of a non-positive amount leaves balance and history unchanged and
reports the invalid-amount message. -/
theorem depositar_correto (saldo valor : ℚ) (extrato : List Transacao) :
    (0 < valor → depositar saldo valor extrato =
      ((saldo + valor, extrato ++ [("Depósito", valor)]), DepositoMsg.sucesso)) ∧
    (valor ≤ 0 → depositar saldo valor extrato =
      ((saldo, extrato), DepositoMsg.valorInvalido)) :=
  ⟨depositar_pos saldo valor extrato, depositar_nonpos saldo valor extrato⟩

theorem depositar_correto_witness :
    depositar 2 5 [] = ((2 + 5, [("Depósito", 5)]), DepositoMsg.sucesso) ∧
    depositar 2 0 [("Depósito", 5)] = ((2, [("Depósito", 5)]), DepositoMsg.valorInvalido) :=
  ⟨(depositar_correto 2 5 []).1 (by decide),
   (depositar_correto 2 0 [("Depósito", 5)]).2 (by decide)⟩

lemma numero_saques_executar (st : Estado) (op : Operacao) :
    (executar st op).2.2 = st.2.2 + (if sucessoSaque st op then 1 else 0) := by
  obtain ⟨saldo, extrato, ns⟩ := st
  cases op with
  | deposito valor => simp [executar, sucessoSaque]
  | saque valor limite ls =>
      simp only [executar, sucessoSaque]
      rcases lt_or_le saldo valor with h1 | h1
      · simp [sacar_saldo_insuficiente saldo valor extrato limite ns ls h1]
      · rcases lt_or_le limite valor with h2 | h2
        · simp [sacar_excede_limite saldo valor extrato limite ns ls h1 h2]
        · rcases le_or_lt ls ns with h3 | h3
          · simp [sacar_excede_saques saldo valor extrato limite ns ls h1 h2 h3]
          · rcases lt_or_le 0 valor with h4 | h4
            · simp [sacar_sucesso saldo valor extrato limite ns ls h1 h2 h3 h4]
            · simp [sacar_valor_invalido saldo valor extrato limite ns ls h1 h2 h3 h4]

lemma numero_saques_executarTodos (ops : List Operacao) (st : Estado) :
    (executarTodos st ops).2.2 = st.2.2 + contarSaquesSucedidos st ops := by
  induction ops generalizing st with
  | nil => simp [executarTodos, contarSaquesSucedidos]
  | cons op ops ih =>
      simp only [executarTodos, contarSaquesSucedidos]
      rw [ih (executar st op), numero_saques_executar st op]
      cases hs : sucessoSaque st op
      · simp [hs]
      · simp [hs]
        omega

/-- C5: starting from withdrawal count 0, a state reached by exactly
`limite_saques` successful withdrawals (counted along the run) rejects
the next withdrawal of a positive amount within balance and
per-withdrawal limit with the count-exceeded message; and every
successful `sacar` call returns a withdrawal count exactly one larger
than the one passed in. -/
theorem limite_saques_atingido (s0 : ℚ) (e0 : List Transacao) (ops : List Operacao)
    (valor limite : ℚ) (ls : ℕ)
    (hcount : contarSaquesSucedidos (s0, e0, 0) ops = ls)
    (_hpos : 0 < valor)
    (hsaldo : valor ≤ (executarTodos (s0, e0, 0) ops).1)
    (hlim : valor ≤ limite) :
    (sacar (executarTodos (s0, e0, 0) ops).1 valor
       (executarTodos (s0, e0, 0) ops).2.1 limite
       (executarTodos (s0, e0, 0) ops).2.2 ls).2 = SaqueMsg.excedeSaques ∧
    (∀ (s v : ℚ) (e : List Transacao) (l : ℚ) (ns nl : ℕ),
      (sacar s v e l ns nl).2 = SaqueMsg.sucesso →
      (sacar s v e l ns nl).1.2.2 = ns + 1) := by
  constructor
  · have hns : (executarTodos (s0, e0, 0) ops).2.2 = ls := by
      rw [numero_saques_executarTodos]
      simpa using hcount
    rw [sacar_excede_saques _ _ _ _ _ _ hsaldo hlim (ge_of_eq hns)]
  · intro s v e l ns nl hsuc
    rcases lt_or_le s v with h1 | h1
    · rw [sacar_saldo_insuficiente s v e l ns nl h1] at hsuc
      simp at hsuc
    · rcases lt_or_le l v with h2 | h2
      · rw [sacar_excede_limite s v e l ns nl h1 h2] at hsuc
        simp at hsuc
      · rcases le_or_lt nl ns with h3 | h3
        · rw [sacar_excede_saques s v e l ns nl h1 h2 h3] at hsuc
          simp at hsuc
        · rcases lt_or_le 0 v with h4 | h4
          · rw [sacar_sucesso s v e l ns nl h1 h2 h3 h4]
          · rw [sacar_valor_invalido s v e l ns nl h1 h2 h3 h4] at hsuc
            simp at hsuc

theorem limite_saques_atingido_witness :
    (sacar (executarTodos (10, [], 0) [Operacao.saque 1 500 1]).1 1
       (executarTodos (10, [], 0) [Operacao.saque 1 500 1]).2.1 500
       (executarTodos (10, [], 0) [Operacao.saque 1 500 1]).2.2 1).2 =
      SaqueMsg.excedeSaques :=
  (limite_saques_atingido 10 [] [Operacao.saque 1 500 1] 1 500 1
    (by decide) (by decide)
    (by norm_num [executarTodos, executar, sacar])
    (by decide)).1

/-- C6: with no kind filter, the report yields exactly the history in
insertion order; with a kind filter, it yields exactly the
order-preserving subsequence of entries whose kind matches the filter
case-insensitively. -/
theorem gerar_relatorio_correto (transacoes : List Transacao) :
    gerar_relatorio transacoes none = transacoes ∧
    ∀ tipo : String, gerar_relatorio transacoes (some tipo) =
      transacoes.filter (fun t => t.1.toLower == tipo.toLower) := by
  constructor
  · induction transacoes with
    | nil => rfl
    | cons t ts ih => simpa [gerar_relatorio] using ih
  · intro tipo
    induction transacoes with
    | nil => rfl
    | cons t ts ih =>
        cases h : t.1.toLower == tipo.toLower <;>
          simp [gerar_relatorio, List.filter_cons, h, ih]

lemma executarAux_drop (n : ℕ) : ∀ (contas : List Conta) (i : ℕ),
    contas.length - i ≤ n →
    ContasIterator.executarAux n ⟨contas, i⟩ = (contas.drop i).map resumoConta := by
  induction n with
  | zero =>
      intro contas i h
      have hge : contas.length ≤ i := by omega
      simp [ContasIterator.executarAux, List.drop_eq_nil_of_le hge]
  | succ n ih =>
      intro contas i h
      by_cases hlt : i < contas.length
      · simp only [ContasIterator.executarAux, ContasIterator.avancar, dif_pos hlt]
        rw [ih contas (i + 1) (by omega), List.drop_eq_getElem_cons hlt, List.map_cons]
        rfl
      · have hge : contas.length ≤ i := by omega
        simp [ContasIterator.executarAux, ContasIterator.avancar, hlt,
          List.drop_eq_nil_of_le hge]

/-- C7: a fresh iterator over a list of accounts, run to exhaustion,
yields exactly one summary tuple
`(numero_conta, usuario.nome, saldo)` per account, in list (creation)
order; and any two fresh iterators over the same unmutated list yield
identical sequences. -/
theorem contas_iterator_correto (contas : List Conta) (it1 it2 : ContasIterator)
    (h1 : it1 = ContasIterator.mk contas 0) (h2 : it2 = ContasIterator.mk contas 0) :
    it1.executarTudo = contas.map resumoConta ∧
    it1.executarTudo.length = contas.length ∧
    it1.executarTudo = it2.executarTudo := by
  subst h1 h2
  have key : (ContasIterator.mk contas 0).executarTudo = contas.map resumoConta := by
    unfold ContasIterator.executarTudo
    simpa using executarAux_drop (contas.length - 0) contas 0 (by omega)
  exact ⟨key, by rw [key]; simp, rfl⟩

/-- A sample registered user, used by concrete instantiations below. -/
def usuarioExemplo : Usuario :=
  { nome := "Ana", data_nascimento := "01-01-2000", cpf := "111",
    endereco := "Rua A, 1 - Centro - Cidade/UF" }

/-- A sample account owned by `usuarioExemplo`. -/
def contaExemplo : Conta :=
  { agencia := "0001", numero_conta := 1, usuario := usuarioExemplo,
    saldo := 0, extrato := [] }

theorem contas_iterator_correto_witness :
    (ContasIterator.mk [contaExemplo] 0).executarTudo = [contaExemplo].map resumoConta :=
  (contas_iterator_correto [contaExemplo] (ContasIterator.mk [contaExemplo] 0)
    (ContasIterator.mk [contaExemplo] 0) rfl rfl).1

/-- C10: when an advance of the iterator signals exhaustion, the
iterator state is returned unchanged, so every further advance of that
same instance signals exhaustion again; an iterator over an empty
account list signals exhaustion on its first advance and yields
nothing. -/
theorem contas_iterator_exaustao (it it' : ContasIterator)
    (h : it.avancar = (none, it')) :
    it' = it ∧ it'.avancar = (none, it') ∧
    (ContasIterator.mk [] 0).avancar = (none, ContasIterator.mk [] 0) ∧
    (ContasIterator.mk [] 0).executarTudo = [] := by
  unfold ContasIterator.avancar at h
  split at h
  · simp at h
  · next hn =>
      injection h with h1 h2
      subst h2
      refine ⟨rfl, ?_, rfl, rfl⟩
      unfold ContasIterator.avancar
      rw [dif_neg hn]

theorem contas_iterator_exaustao_witness :
    ContasIterator.avancar (ContasIterator.mk [] 0) = (none, ContasIterator.mk [] 0) ∧
    ContasIterator.executarTudo (ContasIterator.mk [] 0) = [] :=
  ⟨(contas_iterator_exaustao (ContasIterator.mk [] 0) (ContasIterator.mk [] 0) rfl).2.2.1,
   (contas_iterator_exaustao (ContasIterator.mk [] 0) (ContasIterator.mk [] 0) rfl).2.2.2⟩

/-- C8: if no registered user has the given CPF (which is exactly when
`filtrar_usuario` returns `none`), `criar_conta` creates nothing; if a
user with that CPF is registered, `criar_conta` returns a fresh account
with balance 0, empty history, the supplied account number, the
constant agency code, and the registered user as owner.  The account
record of the source carries no explicit withdrawal counter; the fresh
account's withdrawal count — the number of `"Saque"` entries in its
history — is 0, which the last conjunct states. -/
theorem criar_conta_correto (agencia : String) (numero_conta : ℕ)
    (usuarios : List Usuario) (cpf : String) :
    (filtrar_usuario cpf usuarios = none ↔ ∀ u ∈ usuarios, u.cpf ≠ cpf) ∧
    (filtrar_usuario cpf usuarios = none →
      criar_conta agencia numero_conta usuarios cpf = none) ∧
    (∀ u, filtrar_usuario cpf usuarios = some u → u ∈ usuarios ∧ u.cpf = cpf) ∧
    (∀ u, filtrar_usuario cpf usuarios = some u →
      criar_conta agencia numero_conta usuarios cpf =
        some { agencia := agencia, numero_conta := numero_conta, usuario := u,
               saldo := 0, extrato := [] }) ∧
    (∀ c, criar_conta agencia numero_conta usuarios cpf = some c →
      c.saldo = 0 ∧ c.extrato = [] ∧
      (c.extrato.filter (fun t => t.1 == "Saque")).length = 0) := by
  refine ⟨?_, ?_, ?_, ?_, ?_⟩
  · simp [filtrar_usuario, List.head?_eq_none_iff, List.filter_eq_nil_iff]
  · intro h
    simp [criar_conta, h]
  · intro u h
    have hmem : u ∈ usuarios.filter (fun u => u.cpf == cpf) :=
      List.mem_of_mem_head? (by simp [filtrar_usuario] at h; simp [h])
    have := List.mem_filter.mp hmem
    exact ⟨this.1, by simpa using this.2⟩
  · intro u h
    simp [criar_conta, h]
  · intro c h
    rcases hf : filtrar_usuario cpf usuarios with _ | u
    · simp [criar_conta, hf] at h
    · simp [criar_conta, hf] at h
      subst h
      simp

theorem criar_conta_correto_witness :
    criar_conta "0001" 1 [usuarioExemplo] "111" =
      some { agencia := "0001", numero_conta := 1, usuario := usuarioExemplo,
             saldo := 0, extrato := [] } :=
  (criar_conta_correto "0001" 1 [usuarioExemplo] "111").2.2.2.1 usuarioExemplo rfl

/-- C9: the audit-wrapped version of an operation returns exactly the
result the operation itself returns on the same input, and the audit
record is emitted strictly after all of the operation's own events
(its log is the operation's log with the audit record appended at the
end, so it is also the last event overall). -/
theorem registrar_transacao_transparente {α β : Type} (nome : String)
    (func : α → β × List Evento) (args : α) :
    (registrar_transacao nome func args).1 = (func args).1 ∧
    (registrar_transacao nome func args).2 = (func args).2 ++ [Evento.registro nome] ∧
    (registrar_transacao nome func args).2.getLast? = some (Evento.registro nome) := by
  refine ⟨rfl, rfl, ?_⟩
  simp [registrar_transacao]
